import Mathlib

/-!
Shallow embedding of the express-throttle token-bucket middleware.

JavaScript numbers are modelled as rationals. Math.floor is the integer
floor on rationals; the JS remainder operator (which truncates toward
zero) is modelled by jsMod below. Times (Date.now()) are rational
parameters. Stores are modelled by their observable results: the get
callback receives either an error (an opaque natural-number token) or an
optional bucket, and the set callback receives an optional error.
-/

namespace ExpressThrottle

/-- Truncation toward zero on rationals, the rounding used by the
JavaScript remainder operator. -/
def ratTrunc (q : ℚ) : ℤ := if 0 ≤ q then ⌊q⌋ else -⌊-q⌋

/-- JavaScript remainder a % b: a - b * trunc(a / b). -/
def jsMod (a b : ℚ) : ℚ := a - b * (ratTrunc (a / b) : ℚ)

/-- From src/lib/throttle.js, clamp_max: value > max ? max : value. -/
def clamp_max (value mx : ℚ) : ℚ := if value > mx then mx else value

/-- Per-key bucket state (src/lib/throttle.js). window_start is only
populated in fixed-window mode; absent is JavaScript undefined. -/
structure Bucket where
  tokens : ℚ
  mtime : ℚ
  rtime : ℚ
  window_start : Option ℚ := none
deriving Repr, DecidableEq

/-- The bucket_settings object of src/lib/throttle.js: size is the
capacity (opts.burst or the rate amount), period the rate period in ms. -/
structure Settings where
  size : ℚ
  period : ℚ
deriving Repr, DecidableEq

/-- From src/lib/throttle.js, create_bucket(settings, ctime). -/
def create_bucket (s : Settings) (ctime : ℚ) : Bucket :=
  { tokens := s.size, mtime := ctime, rtime := ctime + s.period }

/-- Fixed-window refill strategy (src/lib/throttle.js lines 13-26).
Returns the refill amount together with the bucket as mutated by the
strategy (window_start is initialised when undefined or 0, which are
both falsy in JavaScript, and advanced to t on a window crossing). -/
def refill_fixed (s : Settings) (b : Bucket) (t : ℚ) : ℚ × Bucket :=
  let ws : ℚ :=
    match b.window_start with
    | none => t
    | some w => if w = 0 then t else w
  let b1 := { b with window_start := some ws }
  let window1 := ⌊(b1.mtime - ws) / s.period⌋
  let window2 := ⌊(t - ws) / s.period⌋
  if window1 = window2 then (0, b1)
  else (s.size, { b1 with window_start := some t })

/-- Rolling refill strategy (src/lib/throttle.js lines 27-32):
rate * (t - bucket.mtime), with rate = amount / period. -/
def refill_rolling (rate : ℚ) (b : Bucket) (t : ℚ) : ℚ × Bucket :=
  (rate * (t - b.mtime), b)

/-- First half of update_bucket (src/lib/throttle.js lines 191-196): apply
the refill strategy, clamp the tokens at the capacity, stamp mtime with
the current time and recompute rtime as abs(period - t % period). -/
def apply_refill (refill : Bucket → ℚ → ℚ × Bucket) (s : Settings) (t : ℚ)
    (b : Bucket) : Bucket :=
  let p := refill b t
  { p.2 with
    tokens := clamp_max (p.2.tokens + p.1) s.size
    mtime := t
    rtime := |s.period - jsMod t s.period| }

/-- From src/lib/throttle.js, update_bucket(bucket, settings, cost, t):
refill and clamp, then admit and subtract the cost when the post-refill
tokens cover it, otherwise reject without touching the tokens. -/
def update_bucket (refill : Bucket → ℚ → ℚ × Bucket) (s : Settings)
    (cost t : ℚ) (b : Bucket) : Bool × Bucket :=
  let b1 := apply_refill refill s t b
  if b1.tokens ≥ cost then (true, { b1 with tokens := b1.tokens - cost })
  else (false, b1)

/-- From src/unnamed/part_002, drain_tokens(bucket, cost, drain): admit
when tokens cover the cost, and only when the drain flag is set subtract
the cost and stamp mtime with Date.now() (passed here as the parameter
now). -/
def drain_tokens (b : Bucket) (cost : ℚ) (drain : Bool) (now : ℚ) :
    Bool × Bucket :=
  if b.tokens ≥ cost then
    (true, if drain then { b with tokens := b.tokens - cost, mtime := now } else b)
  else (false, b)

/-- Parsed rate configuration (src/lib/options.js parse_rate result):
amount, period in milliseconds, and the fixed-window discriminator. -/
structure Rate where
  amount : ℕ
  period : ℕ
  fixed : Bool
deriving Repr, DecidableEq

/-- From src/lib/options.js, time_unit_to_ms, as the association list of
the unit alternatives of RATE_PATTERN with their millisecond values. -/
def RATE_UNITS : List (String × ℕ) :=
  [("ms", 1),
   ("s", 1000), ("sec", 1000), ("second", 1000),
   ("m", 60 * 1000), ("min", 60 * 1000), ("minute", 60 * 1000),
   ("h", 60 * 60 * 1000), ("hour", 60 * 60 * 1000),
   ("d", 24 * 60 * 60 * 1000), ("day", 24 * 60 * 60 * 1000)]

/-- Digit run to number, as parseInt(s, 10) on a string of digits. -/
def digitsToNat (cs : List Char) : ℕ :=
  cs.foldl (fun n c => 10 * n + (c.toNat - 48)) 0

/-- Match the tail of a rate string after the digits against one unit
alternative of RATE_PATTERN, optionally followed by the :fixed suffix;
returns the milliseconds of the unit and the fixed flag. -/
def match_unit_tail (rest : List Char) : Option (ℕ × Bool) :=
  match RATE_UNITS.find? (fun p => rest == p.1.data) with
  | some p => some (p.2, false)
  | none =>
    match RATE_UNITS.find? (fun p => rest == p.1.data ++ (":fixed").data) with
    | some p => some (p.2, true)
    | none => none

/-- From src/lib/options.js, parse_rate against
RATE_PATTERN = (digits)/(digits)?(unit)(:fixed)? anchored at both ends.
Returns none exactly when the pattern does not match (the thrown
configuration error); an absent denominator defaults to 1. -/
def parse_rate (rate : String) : Option Rate :=
  let cs := rate.data
  let digits1 := cs.takeWhile Char.isDigit
  let rest1 := cs.dropWhile Char.isDigit
  if digits1.isEmpty then none else
  match rest1 with
  | '/' :: rest2 =>
    let digits2 := rest2.takeWhile Char.isDigit
    let rest3 := rest2.dropWhile Char.isDigit
    match match_unit_tail rest3 with
    | some (ms, fx) =>
      let denominator := if digits2.isEmpty then 1 else digitsToNat digits2
      some { amount := digitsToNat digits1, period := denominator * ms, fixed := fx }
    | none => none
  | _ => none

/-- Outcome dispatched by the main middleware for one request: either the
error channel next(err), the on_allowed hook, or the on_throttled hook. -/
inductive Dispatch where
  | nextError : ℕ → Dispatch
  | allowed : Dispatch
  | throttled : Dispatch
deriving Repr, DecidableEq

/-- Observable result of one request through the main middleware:
the dispatched outcome and the argument of the store.set call (none when
set was never invoked). -/
structure MwResult where
  dispatch : Dispatch
  setArg : Option Bucket
deriving Repr, DecidableEq

/-- From src/lib/throttle.js lines 66-91, the middleware body for one
request, as a function of the store.get result and of the error the
store.set callback receives. -/
def throttle_mw (refill : Bucket → ℚ → ℚ × Bucket) (s : Settings)
    (cost t : ℚ) (getRes : Except ℕ (Option Bucket)) (setErr : Option ℕ) :
    MwResult :=
  match getRes with
  | .error e => { dispatch := .nextError e, setArg := none }
  | .ok ob =>
    let b := ob.getD (create_bucket s t)
    let r := update_bucket refill s cost t b
    match setErr with
    | some e => { dispatch := .nextError e, setArg := some r.2 }
    | none => { dispatch := if r.1 then .allowed else .throttled, setArg := some r.2 }

/-- Observable result of one request through the drain-variant middleware
of src/unnamed/part_002: which callbacks fired, the plain next() call at
the end of the deferred-drain branch, the store.set argument, the
admission decision, whether req.drain was armed with the draining
closure, and the shared bucket after the initial pass. -/
structure DrainMwResult where
  nextError : Option ℕ
  allowedCalled : Bool
  throttledCalled : Bool
  plainNext : Bool
  setArg : Option Bucket
  isAllowed : Bool
  drainArmed : Bool
  bucket : Bucket
deriving Repr, DecidableEq

/-- From src/unnamed/part_002 lines 11-64, the drain-variant middleware
body for one request. The refill strategy supplied by its options module
(opts.refill_bucket, called as refill_bucket(t, bucket)) and
opts.create_bucket are not among the sources and are abstracted as
function parameters; tDrain is the Date.now() read inside the initial
drain_tokens call. An error result is the get-error short circuit, where
nothing else happens. -/
def throttle_drain_mw (refill_bucket : ℚ → Bucket → ℚ)
    (create : ℚ → Bucket) (burst cost : ℚ) (auto_drain : Bool)
    (t tDrain : ℚ) (getRes : Except ℕ (Option Bucket)) (setErr : Option ℕ) :
    Except ℕ DrainMwResult :=
  match getRes with
  | .error e => .error e
  | .ok ob =>
    let b0 := ob.getD (create t)
    let tokens := refill_bucket t b0
    let b1 := { b0 with tokens := clamp_max (b0.tokens + tokens) burst }
    let p := drain_tokens b1 cost auto_drain tDrain
    .ok
      { nextError := setErr
        allowedCalled := setErr.isNone && p.1
        throttledCalled := setErr.isNone && !p.1
        plainNext := !auto_drain && p.1
        setArg := some p.2
        isAllowed := p.1
        drainArmed := !auto_drain && p.1
        bucket := p.2 }

/-- State captured by the armed req.drain closure of
src/unnamed/part_002 lines 42-62: the shared bucket and the per-request
drained flag. -/
structure DrainHandleState where
  bucket : Bucket
  drained : Bool
deriving Repr, DecidableEq

/-- Observable result of one req.drain invocation: the updated closure
state, whether store.set was invoked, and the error thrown (the set
callback rethrows its error). -/
structure DrainCallResult where
  state : DrainHandleState
  setCalled : Bool
  thrown : Option ℕ
deriving Repr, DecidableEq

/-- From src/unnamed/part_002 lines 46-59, one invocation of the armed
req.drain closure: a no-op once drained, otherwise set the flag, drain
the cost via drain_tokens with the drain flag on (now is the Date.now()
read inside it), persist via store.set and rethrow its error. -/
def drain_invoke (cost now : ℚ) (setErr : Option ℕ) (st : DrainHandleState) :
    DrainCallResult :=
  if st.drained then { state := st, setCalled := false, thrown := none }
  else
    let p := drain_tokens st.bucket cost true now
    { state := { bucket := p.2, drained := true }, setCalled := true, thrown := setErr }

/-- Invocation of req.drain as the middleware leaves it: the armed
closure when the deferred-drain branch ran, otherwise the no-op default
installed at src/unnamed/part_002 lines 38-40. -/
def req_drain_action (r : DrainMwResult) (cost now : ℚ) (setErr : Option ℕ) :
    DrainCallResult :=
  if r.drainArmed then drain_invoke cost now setErr { bucket := r.bucket, drained := false }
  else { state := { bucket := r.bucket, drained := false }, setCalled := false, thrown := none }

/-- Modelled from the spec: a drain action that first recomputes the
rolling refill against the current time (the parenthetical of spec
section 4.4) and then drains; used only to compare the wording of the spec
with drain_invoke, which the source code defines without any refill. -/
def drain_invoke_refillFirst (rate cap cost now : ℚ) (setErr : Option ℕ)
    (st : DrainHandleState) : DrainCallResult :=
  if st.drained then { state := st, setCalled := false, thrown := none }
  else
    let b := st.bucket
    let b1 := { b with tokens := clamp_max (b.tokens + rate * (now - b.mtime)) cap, mtime := now }
    let p := drain_tokens b1 cost true now
    { state := { bucket := p.2, drained := true }, setCalled := true, thrown := setErr }

/-- Modelled from the spec: the time remaining at time t in the current
window of the fixed discipline when windows are anchored at ws, that is
the distance from t to the end of the window with index
floor((t - ws) / period). Used to compare what the spec says about
rtime with the epoch-anchored computation in the code. -/
def remaining_in_window (ws period t : ℚ) : ℚ :=
  ws + ((⌊(t - ws) / period⌋ : ℚ) + 1) * period - t

/-! Helper lemmas shared by the claim theorems. -/

/-- The clamp of src/lib/throttle.js is the binary minimum. -/
lemma clamp_max_eq_min (v m : ℚ) : clamp_max v m = min v m := by
  unfold clamp_max
  split
  · next h => exact (min_eq_right h.le).symm
  · next h => exact (min_eq_left (not_lt.mp h)).symm

/-- Clamping x + m at m gives exactly m when x is nonnegative. -/
lemma clamp_max_add_self (x m : ℚ) (hx : 0 ≤ x) : clamp_max (x + m) m = m := by
  rw [clamp_max_eq_min]
  rcases lt_or_eq_of_le hx with h | h
  · exact min_eq_right (by linarith)
  · rw [← h, zero_add, min_self]

/-- Tokens after the rolling refill-and-clamp step at elapsed time dt. -/
lemma rolling_tokens (rate : ℚ) (s : Settings) (b : Bucket) (dt : ℚ) :
    (apply_refill (refill_rolling rate) s (b.mtime + dt) b).tokens
      = min (b.tokens + rate * dt) s.size := by
  have h : b.mtime + dt - b.mtime = dt := by ring
  simp only [apply_refill, refill_rolling, h, clamp_max_eq_min]

/-! Claim theorems. -/

/-- C1: for every rolling-mode bucket with 0 <= tokens <= capacity and
every elapsed time dt >= 0, the refill-and-clamp step yields
tokens = min(tokens + rate*dt, capacity); the result is monotonically
non-decreasing in dt, never exceeds the capacity no matter how large dt
is, and for dt large enough equals the capacity exactly. -/
theorem C1_rolling_refill_clamped (rate : ℚ) (s : Settings) (b : Bucket)
    (hrate : 0 < rate) (htok : 0 ≤ b.tokens) (hcap : b.tokens ≤ s.size) :
    (∀ dt : ℚ, 0 ≤ dt →
      (apply_refill (refill_rolling rate) s (b.mtime + dt) b).tokens
        = min (b.tokens + rate * dt) s.size) ∧
    (∀ dt1 dt2 : ℚ, 0 ≤ dt1 → dt1 ≤ dt2 →
      (apply_refill (refill_rolling rate) s (b.mtime + dt1) b).tokens
        ≤ (apply_refill (refill_rolling rate) s (b.mtime + dt2) b).tokens) ∧
    (∀ dt : ℚ, 0 ≤ dt →
      (apply_refill (refill_rolling rate) s (b.mtime + dt) b).tokens ≤ s.size) ∧
    (∀ dt : ℚ, (s.size - b.tokens) / rate ≤ dt →
      (apply_refill (refill_rolling rate) s (b.mtime + dt) b).tokens = s.size) := by
  refine ⟨fun dt _ => rolling_tokens rate s b dt, ?_, ?_, ?_⟩
  · intro dt1 dt2 _ hle
    rw [rolling_tokens, rolling_tokens]
    exact min_le_min (by nlinarith) le_rfl
  · intro dt _
    rw [rolling_tokens]
    exact min_le_right _ _
  · intro dt hdt
    rw [rolling_tokens]
    have h : s.size - b.tokens ≤ dt * rate := (div_le_iff₀ hrate).mp hdt
    exact min_eq_right (by nlinarith)

/-- Witness for C1 at rate 1, capacity 2, a bucket holding 1 token. -/
theorem C1_witness :
    ((0 : ℚ) < 1 ∧ (0 : ℚ) ≤ (1 : ℚ) ∧ (1 : ℚ) ≤ (2 : ℚ)) ∧
    ((∀ dt : ℚ, 0 ≤ dt →
      (apply_refill (refill_rolling 1) ⟨2, 100⟩ ((1 : ℚ) + dt)
        { tokens := 1, mtime := 1, rtime := 0 }).tokens
        = min (1 + 1 * dt) 2) ∧
    (∀ dt1 dt2 : ℚ, 0 ≤ dt1 → dt1 ≤ dt2 →
      (apply_refill (refill_rolling 1) ⟨2, 100⟩ ((1 : ℚ) + dt1)
        { tokens := 1, mtime := 1, rtime := 0 }).tokens
        ≤ (apply_refill (refill_rolling 1) ⟨2, 100⟩ ((1 : ℚ) + dt2)
            { tokens := 1, mtime := 1, rtime := 0 }).tokens) ∧
    (∀ dt : ℚ, 0 ≤ dt →
      (apply_refill (refill_rolling 1) ⟨2, 100⟩ ((1 : ℚ) + dt)
        { tokens := 1, mtime := 1, rtime := 0 }).tokens ≤ 2) ∧
    (∀ dt : ℚ, ((2 : ℚ) - 1) / 1 ≤ dt →
      (apply_refill (refill_rolling 1) ⟨2, 100⟩ ((1 : ℚ) + dt)
        { tokens := 1, mtime := 1, rtime := 0 }).tokens = 2)) :=
  ⟨⟨by norm_num, by norm_num, by norm_num⟩,
    C1_rolling_refill_clamped 1 ⟨2, 100⟩ { tokens := 1, mtime := 1, rtime := 0 }
      (by norm_num) (by norm_num) (by norm_num)⟩

/-- C2: for every bucket and cost, the engine admits exactly when the
post-refill token count is at least the cost (equality admits); on
admission it subtracts exactly the cost from the post-refill tokens, and
on rejection the persisted bucket is exactly the post-refill bucket (the
refill is still applied, nothing is decremented). The same boundary and
subtraction behaviour holds for drain_tokens of the drain variant. -/
theorem C2_admission_boundary (refill : Bucket → ℚ → ℚ × Bucket)
    (s : Settings) (cost t now : ℚ) (b : Bucket) :
    ((update_bucket refill s cost t b).1 = true ↔
        cost ≤ (apply_refill refill s t b).tokens) ∧
    ((update_bucket refill s cost t b).1 = true →
        (update_bucket refill s cost t b).2.tokens
          = (apply_refill refill s t b).tokens - cost) ∧
    ((update_bucket refill s cost t b).1 = false →
        (update_bucket refill s cost t b).2 = apply_refill refill s t b) ∧
    ((drain_tokens b cost true now).1 = true ↔ cost ≤ b.tokens) ∧
    ((drain_tokens b cost true now).1 = true →
        (drain_tokens b cost true now).2.tokens = b.tokens - cost) ∧
    ((drain_tokens b cost true now).1 = false →
        (drain_tokens b cost true now).2 = b) := by
  by_cases h : cost ≤ (apply_refill refill s t b).tokens <;>
    by_cases h2 : cost ≤ b.tokens <;>
      simp [update_bucket, drain_tokens, ge_iff_le, h, h2]

/-- C7: a request with cost 0 is always admitted, including at zero
tokens; the admission leaves the post-refill token count untouched while
mtime is still advanced; likewise drain_tokens with cost 0 admits,
leaves the tokens unchanged and advances mtime. -/
theorem C7_zero_cost_admits (refill : Bucket → ℚ → ℚ × Bucket)
    (s : Settings) (t now : ℚ) (b : Bucket)
    (hsz : 0 ≤ s.size)
    (hrf : 0 ≤ (refill b t).2.tokens + (refill b t).1)
    (htok : 0 ≤ b.tokens) :
    (update_bucket refill s 0 t b).1 = true ∧
    (update_bucket refill s 0 t b).2 = apply_refill refill s t b ∧
    (update_bucket refill s 0 t b).2.mtime = t ∧
    (drain_tokens b 0 true now).1 = true ∧
    (drain_tokens b 0 true now).2.tokens = b.tokens ∧
    (drain_tokens b 0 true now).2.mtime = now := by
  have hpost : (0 : ℚ) ≤ (apply_refill refill s t b).tokens := by
    simp only [apply_refill, clamp_max_eq_min]
    exact le_min hrf hsz
  have h1 : update_bucket refill s 0 t b = (true, apply_refill refill s t b) := by
    unfold update_bucket
    rcases hx : apply_refill refill s t b with ⟨tk, mt, rt, ws⟩
    rw [hx] at hpost
    simp only [ge_iff_le] at hpost ⊢
    rw [if_pos hpost]
    simp
  have h2 : drain_tokens b 0 true now
      = (true, { b with tokens := b.tokens - 0, mtime := now }) := by
    unfold drain_tokens
    rw [if_pos (show b.tokens ≥ 0 from htok)]
    simp
  refine ⟨by rw [h1], by rw [h1], ?_, by rw [h2], by rw [h2]; simp, by rw [h2]⟩
  rw [h1]
  simp [apply_refill]

/-- Witness for C7 with the rolling strategy at rate 1 on a concrete
bucket. -/
theorem C7_witness :
    ((0 : ℚ) ≤ (2 : ℚ) ∧
     (0 : ℚ) ≤ (refill_rolling 1 { tokens := 1, mtime := 0, rtime := 0 } 10).2.tokens
        + (refill_rolling 1 { tokens := 1, mtime := 0, rtime := 0 } 10).1 ∧
     (0 : ℚ) ≤ (1 : ℚ)) ∧
    ((update_bucket (refill_rolling 1) ⟨2, 100⟩ 0 10
        { tokens := 1, mtime := 0, rtime := 0 }).1 = true ∧
     (update_bucket (refill_rolling 1) ⟨2, 100⟩ 0 10
        { tokens := 1, mtime := 0, rtime := 0 }).2
       = apply_refill (refill_rolling 1) ⟨2, 100⟩ 10
          { tokens := 1, mtime := 0, rtime := 0 } ∧
     (update_bucket (refill_rolling 1) ⟨2, 100⟩ 0 10
        { tokens := 1, mtime := 0, rtime := 0 }).2.mtime = 10 ∧
     (drain_tokens { tokens := 1, mtime := 0, rtime := 0 } 0 true 10).1 = true ∧
     (drain_tokens { tokens := 1, mtime := 0, rtime := 0 } 0 true 10).2.tokens = 1 ∧
     (drain_tokens { tokens := 1, mtime := 0, rtime := 0 } 0 true 10).2.mtime = 10) :=
  ⟨⟨by norm_num, by norm_num [refill_rolling], by norm_num⟩,
    C7_zero_cost_admits (refill_rolling 1) ⟨2, 100⟩ 10 10
      { tokens := 1, mtime := 0, rtime := 0 }
      (by norm_num) (by norm_num [refill_rolling]) (by norm_num)⟩

/-- The JS remainder agrees with the floor form on nonnegative
arguments. -/
lemma jsMod_eq_floor (a b : ℚ) (ha : 0 ≤ a) (hb : 0 < b) :
    jsMod a b = a - b * (⌊a / b⌋ : ℚ) := by
  unfold jsMod ratTrunc
  rw [if_pos (div_nonneg ha hb.le)]

/-- Range of the JS remainder on nonnegative arguments. -/
lemma jsMod_nonneg_lt (a b : ℚ) (ha : 0 ≤ a) (hb : 0 < b) :
    0 ≤ jsMod a b ∧ jsMod a b < b := by
  rw [jsMod_eq_floor a b ha hb]
  have h1 : ((⌊a / b⌋ : ℚ)) ≤ a / b := Int.floor_le _
  have h2 : a / b < (⌊a / b⌋ : ℚ) + 1 := Int.lt_floor_add_one _
  rw [le_div_iff₀ hb] at h1
  rw [div_lt_iff₀ hb] at h2
  constructor <;> nlinarith

/-- C3: in fixed-window mode, when now and the mtime of the bucket fall in
the same window relative to window_start the refill is zero (and the
clamped tokens are unchanged, window_start is kept); on a window change
the bucket resets to full capacity in one jump and window_start is
advanced to now; and after such a reset any further update inside the
new window (window index 0 relative to the new window_start) again
refills zero, so the reset happens exactly once per crossing. -/
theorem C3_fixed_window_reset (s : Settings) (b : Bucket) (t w : ℚ)
    (hws : b.window_start = some w) (hw : w ≠ 0)
    (htok : 0 ≤ b.tokens) (hcap : b.tokens ≤ s.size) (ht : t ≠ 0) :
    (⌊(t - w) / s.period⌋ = ⌊(b.mtime - w) / s.period⌋ →
        (refill_fixed s b t).1 = 0 ∧
        (apply_refill (refill_fixed s) s t b).tokens = b.tokens ∧
        (apply_refill (refill_fixed s) s t b).window_start = some w) ∧
    (⌊(t - w) / s.period⌋ ≠ ⌊(b.mtime - w) / s.period⌋ →
        (refill_fixed s b t).1 = s.size ∧
        (apply_refill (refill_fixed s) s t b).tokens = s.size ∧
        (apply_refill (refill_fixed s) s t b).window_start = some t ∧
        (∀ u : ℚ, ⌊(u - t) / s.period⌋ = 0 →
          (refill_fixed s (apply_refill (refill_fixed s) s t b) u).1 = 0)) := by
  constructor
  · intro heq
    have h : refill_fixed s b t = (0, { b with window_start := some w }) := by
      simp only [refill_fixed, hws]
      rw [if_neg hw]
      rw [if_pos heq.symm]
    refine ⟨by rw [h], ?_, ?_⟩
    · simp only [apply_refill, h, add_zero, clamp_max_eq_min]
      exact min_eq_left hcap
    · simp only [apply_refill, h]
  · intro hne
    have h : refill_fixed s b t
        = (s.size, { b with window_start := some t }) := by
      simp only [refill_fixed, hws]
      rw [if_neg hw]
      rw [if_neg (fun hc => hne hc.symm)]
    have htk : (apply_refill (refill_fixed s) s t b).tokens = s.size := by
      simp only [apply_refill, h]
      exact clamp_max_add_self _ _ htok
    refine ⟨by rw [h], htk, by simp only [apply_refill, h], ?_⟩
    intro u hu
    have hmt : (apply_refill (refill_fixed s) s t b).mtime = t := by
      simp only [apply_refill, h]
    have hws2 : (apply_refill (refill_fixed s) s t b).window_start = some t := by
      simp only [apply_refill, h]
    simp only [refill_fixed, hws2, hmt]
    rw [if_neg ht]
    simp only [sub_self, zero_div, Int.floor_zero]
    rw [if_pos hu.symm]

/-- Witness for C3: a bucket whose window starts at 30 with period 100,
updated once inside the window (t = 50) and once across the boundary
(handled by instantiating the theorem). -/
theorem C3_witness :
    (({ tokens := 1, mtime := 40, rtime := 0, window_start := some 30 } : Bucket).window_start
        = some 30 ∧ (30 : ℚ) ≠ 0 ∧ (0 : ℚ) ≤ 1 ∧ (1 : ℚ) ≤ 2 ∧ (150 : ℚ) ≠ 0) ∧
    ((⌊((150 : ℚ) - 30) / (100 : ℚ)⌋
        = ⌊(({ tokens := 1, mtime := 40, rtime := 0, window_start := some 30 } : Bucket).mtime - 30) / (100 : ℚ)⌋ →
        (refill_fixed ⟨2, 100⟩ { tokens := 1, mtime := 40, rtime := 0, window_start := some 30 } 150).1 = 0 ∧
        (apply_refill (refill_fixed ⟨2, 100⟩) ⟨2, 100⟩ 150
          { tokens := 1, mtime := 40, rtime := 0, window_start := some 30 }).tokens = 1 ∧
        (apply_refill (refill_fixed ⟨2, 100⟩) ⟨2, 100⟩ 150
          { tokens := 1, mtime := 40, rtime := 0, window_start := some 30 }).window_start = some 30) ∧
    (⌊((150 : ℚ) - 30) / (100 : ℚ)⌋
        ≠ ⌊(({ tokens := 1, mtime := 40, rtime := 0, window_start := some 30 } : Bucket).mtime - 30) / (100 : ℚ)⌋ →
        (refill_fixed ⟨2, 100⟩ { tokens := 1, mtime := 40, rtime := 0, window_start := some 30 } 150).1 = 2 ∧
        (apply_refill (refill_fixed ⟨2, 100⟩) ⟨2, 100⟩ 150
          { tokens := 1, mtime := 40, rtime := 0, window_start := some 30 }).tokens = 2 ∧
        (apply_refill (refill_fixed ⟨2, 100⟩) ⟨2, 100⟩ 150
          { tokens := 1, mtime := 40, rtime := 0, window_start := some 30 }).window_start = some 150 ∧
        (∀ u : ℚ, ⌊(u - 150) / (100 : ℚ)⌋ = 0 →
          (refill_fixed ⟨2, 100⟩ (apply_refill (refill_fixed ⟨2, 100⟩) ⟨2, 100⟩ 150
            { tokens := 1, mtime := 40, rtime := 0, window_start := some 30 }) u).1 = 0))) :=
  ⟨⟨rfl, by norm_num, by norm_num, by norm_num, by norm_num⟩,
    C3_fixed_window_reset ⟨2, 100⟩
      { tokens := 1, mtime := 40, rtime := 0, window_start := some 30 } 150 30
      rfl (by norm_num) (by norm_num) (by norm_num) (by norm_num)⟩

/-- C6: evaluation of parse_rate at the failing inputs. The claim (and
the unit tests of the repository itself, such as the period cannot be 0 case of
test/options.unit.js) requires rate strings with a zero amount or a zero
denominator to be configuration errors, but parse_rate accepts both,
yielding amount 0 and period_ms 0 respectively, while strings that fail
RATE_PATTERN are rejected. -/
theorem C6_zero_rate_parses :
    parse_rate ("0/s") = some { amount := 0, period := 1000, fixed := false } ∧
    parse_rate ("1/0m") = some { amount := 1, period := 0, fixed := false } ∧
    parse_rate ("1.5/s") = none ∧
    parse_rate ("-1/s") = none ∧
    parse_rate ("10/m:test") = none := by decide

/-- C9 counterexample: with period 100 and window_start 30, an update at
t = 50 stores rtime 50, but the time remaining in the current
window anchored at window_start is 80, so the rtime the code computes is
not the remaining time of the window anchored at window_start. -/
theorem C9_counterexample :
    (apply_refill (refill_fixed ⟨2, 100⟩) ⟨2, 100⟩ 50
      { tokens := 1, mtime := 40, rtime := 0, window_start := some 30 }).rtime = 50 ∧
    remaining_in_window 30 100 50 = 80 ∧
    ((50 : ℚ) ≠ 80) := by
  refine ⟨?_, ?_, by norm_num⟩
  · show |(100 : ℚ) - jsMod 50 100| = 50
    norm_num [jsMod, ratTrunc]
  · unfold remaining_in_window
    norm_num

/-- C9 amended: every bucket update recomputes the exposed reset time as
abs(period_ms - now mod period_ms), and for nonnegative now and positive
period this equals the time remaining in the period-aligned window
anchored at epoch 0 that contains now (not, in general, in the window
anchored at the window_start of the bucket). -/
theorem C9_rtime_epoch_anchored (refill : Bucket → ℚ → ℚ × Bucket)
    (s : Settings) (t : ℚ) (b : Bucket) (ht : 0 ≤ t) (hp : 0 < s.period) :
    (apply_refill refill s t b).rtime = |s.period - jsMod t s.period| ∧
    (apply_refill refill s t b).rtime = remaining_in_window 0 s.period t := by
  have hfst : (apply_refill refill s t b).rtime
      = |s.period - jsMod t s.period| := rfl
  refine ⟨hfst, ?_⟩
  rw [hfst]
  obtain ⟨hm0, hmlt⟩ := jsMod_nonneg_lt t s.period ht hp
  rw [abs_of_nonneg (by linarith)]
  rw [jsMod_eq_floor t s.period ht hp]
  unfold remaining_in_window
  simp only [sub_zero, zero_add]
  ring

/-- Witness for C9 amended at t = 50, period 100. -/
theorem C9_witness :
    ((0 : ℚ) ≤ 50 ∧ (0 : ℚ) < (100 : ℚ)) ∧
    ((apply_refill (refill_rolling 1) ⟨2, 100⟩ 50
        { tokens := 1, mtime := 0, rtime := 0 }).rtime
          = |(100 : ℚ) - jsMod 50 100| ∧
     (apply_refill (refill_rolling 1) ⟨2, 100⟩ 50
        { tokens := 1, mtime := 0, rtime := 0 }).rtime
          = remaining_in_window 0 100 50) :=
  ⟨⟨by norm_num, by norm_num⟩,
    C9_rtime_epoch_anchored (refill_rolling 1) ⟨2, 100⟩ 50
      { tokens := 1, mtime := 0, rtime := 0 } (by norm_num) (by norm_num)⟩

/-- C4 counterexample: in the drain-variant middleware with auto_drain
disabled and an admitted request, a store.set error is propagated to
next(err) and neither callback fires, yet the plain next() call of the
deferred-drain branch still fires for that request, so the admission
decision is acted on rather than discarded as the claim states. -/
theorem C4_counterexample :
    Except.map DrainMwResult.plainNext
      (throttle_drain_mw (fun _ _ => 0)
        (fun u => { tokens := 1, mtime := u, rtime := 0 }) 1 1 false 0 0
        (Except.ok (some { tokens := 1, mtime := 0, rtime := 0 })) (some 7))
      = Except.ok true ∧
    Except.map DrainMwResult.nextError
      (throttle_drain_mw (fun _ _ => 0)
        (fun u => { tokens := 1, mtime := u, rtime := 0 }) 1 1 false 0 0
        (Except.ok (some { tokens := 1, mtime := 0, rtime := 0 })) (some 7))
      = Except.ok (some 7) ∧
    Except.map DrainMwResult.allowedCalled
      (throttle_drain_mw (fun _ _ => 0)
        (fun u => { tokens := 1, mtime := u, rtime := 0 }) 1 1 false 0 0
        (Except.ok (some { tokens := 1, mtime := 0, rtime := 0 })) (some 7))
      = Except.ok false ∧
    Except.map DrainMwResult.throttledCalled
      (throttle_drain_mw (fun _ _ => 0)
        (fun u => { tokens := 1, mtime := u, rtime := 0 }) 1 1 false 0 0
        (Except.ok (some { tokens := 1, mtime := 0, rtime := 0 })) (some 7))
      = Except.ok false := by
  refine ⟨?_, ?_, ?_, ?_⟩ <;>
    norm_num [throttle_drain_mw, drain_tokens, clamp_max, Except.map]

/-- C4 amended: a store.get or store.set error is propagated to the
error channel next(err) and neither on_allowed nor on_throttled is
invoked, in both middlewares; in the main middleware nothing else of the
computed decision is acted on (a get error even skips store.set), while
in the drain variant the plain next() call of the deferred-drain branch is
governed only by the admission decision, not by the set error (see the
counterexample). -/
theorem C4_store_error_shortcircuit
    (refill : Bucket → ℚ → ℚ × Bucket) (rb : ℚ → Bucket → ℚ)
    (create : ℚ → Bucket) (s : Settings) (burst cost t tD : ℚ)
    (auto : Bool) (e : ℕ) (ob : Option Bucket) (setErr : Option ℕ) :
    (throttle_mw refill s cost t (Except.error e) setErr
        = { dispatch := .nextError e, setArg := none }) ∧
    ((throttle_mw refill s cost t (Except.ok ob) (some e)).dispatch
        = .nextError e) ∧
    (throttle_drain_mw rb create burst cost auto t tD (Except.error e) setErr
        = Except.error e) ∧
    (∃ r : DrainMwResult,
      throttle_drain_mw rb create burst cost auto t tD (Except.ok ob) (some e)
          = Except.ok r ∧
      r.nextError = some e ∧ r.allowedCalled = false ∧
      r.throttledCalled = false) := by
  exact ⟨rfl, rfl, rfl, ⟨_, rfl, rfl, rfl, rfl⟩⟩

/-- C5 counterexample: the deferred drain does not recompute refill
against the current time. A bucket holding 1 token with mtime 0, rate
1/100 per ms, capacity 5, drained at t = 200 ends at 0 tokens, whereas
the drain described by the claim (refill recomputed first) would end at
min(1 + 2, 5) - 1 = 2 tokens. -/
theorem C5_counterexample :
    (drain_invoke 1 200 none
      { bucket := { tokens := 1, mtime := 0, rtime := 0 },
        drained := false }).state.bucket.tokens = 0 ∧
    (drain_invoke_refillFirst (1 / 100) 5 1 200 none
      { bucket := { tokens := 1, mtime := 0, rtime := 0 },
        drained := false }).state.bucket.tokens = 2 ∧
    ((0 : ℚ) ≠ 2) := by
  refine ⟨?_, ?_, by norm_num⟩
  · norm_num [drain_invoke, drain_tokens]
  · norm_num [drain_invoke_refillFirst, drain_tokens, clamp_max]

/-- C5 amended: with the drain protocol enabled, on an admitted request
(tokens cover the cost) the first req.drain invocation subtracts the
cost exactly once, stamps mtime with the drain-time clock reading
(without recomputing any refill) and invokes store.set; every later
invocation in the same request is a complete no-op guarded by the
per-request drained flag. -/
theorem C5_drain_exactly_once (cost now1 now2 : ℚ) (e1 e2 : Option ℕ)
    (b : Bucket) (h : cost ≤ b.tokens) :
    (drain_invoke cost now1 e1
        { bucket := b, drained := false }).state.bucket.tokens
      = b.tokens - cost ∧
    (drain_invoke cost now1 e1
        { bucket := b, drained := false }).state.bucket.mtime = now1 ∧
    (drain_invoke cost now1 e1
        { bucket := b, drained := false }).setCalled = true ∧
    drain_invoke cost now2 e2
        (drain_invoke cost now1 e1 { bucket := b, drained := false }).state
      = { state := (drain_invoke cost now1 e1
            { bucket := b, drained := false }).state,
          setCalled := false, thrown := none } := by
  have h1 : drain_invoke cost now1 e1 { bucket := b, drained := false }
      = { state := { bucket := { b with tokens := b.tokens - cost, mtime := now1 },
                      drained := true },
          setCalled := true, thrown := e1 } := by
    simp [drain_invoke, drain_tokens, ge_iff_le, h]
  refine ⟨by rw [h1], by rw [h1], by rw [h1], ?_⟩
  rw [h1]
  simp [drain_invoke]

/-- Witness for C5 amended: cost 1 drained from a bucket with 2 tokens. -/
theorem C5_witness :
    ((1 : ℚ) ≤ 2) ∧
    ((drain_invoke 1 5 (some 3)
        { bucket := { tokens := 2, mtime := 0, rtime := 0 },
          drained := false }).state.bucket.tokens = 2 - 1 ∧
     (drain_invoke 1 5 (some 3)
        { bucket := { tokens := 2, mtime := 0, rtime := 0 },
          drained := false }).state.bucket.mtime = 5 ∧
     (drain_invoke 1 5 (some 3)
        { bucket := { tokens := 2, mtime := 0, rtime := 0 },
          drained := false }).setCalled = true ∧
     drain_invoke 1 9 none
        (drain_invoke 1 5 (some 3)
          { bucket := { tokens := 2, mtime := 0, rtime := 0 },
            drained := false }).state
       = { state := (drain_invoke 1 5 (some 3)
             { bucket := { tokens := 2, mtime := 0, rtime := 0 },
               drained := false }).state,
           setCalled := false, thrown := none }) :=
  ⟨by norm_num,
    C5_drain_exactly_once 1 5 9 (some 3) none
      { tokens := 2, mtime := 0, rtime := 0 } (by norm_num)⟩

/-- C8: when the armed req.drain closure runs for the first time, the
store.set it performs is always invoked and an error from it is rethrown
at the invocation point, never swallowed. -/
theorem C8_drain_set_error_rethrown (cost now : ℚ) (e : ℕ)
    (st : DrainHandleState) (h : st.drained = false) :
    (drain_invoke cost now (some e) st).thrown = some e ∧
    (drain_invoke cost now (some e) st).setCalled = true := by
  simp [drain_invoke, h]

/-- Witness for C8 on a concrete un-drained handle. -/
theorem C8_witness :
    (({ bucket := { tokens := 1, mtime := 0, rtime := 0 },
        drained := false } : DrainHandleState).drained = false) ∧
    ((drain_invoke 1 5 (some 7)
        { bucket := { tokens := 1, mtime := 0, rtime := 0 },
          drained := false }).thrown = some 7 ∧
     (drain_invoke 1 5 (some 7)
        { bucket := { tokens := 1, mtime := 0, rtime := 0 },
          drained := false }).setCalled = true) :=
  ⟨rfl, C8_drain_set_error_rethrown 1 5 7
    { bucket := { tokens := 1, mtime := 0, rtime := 0 }, drained := false } rfl⟩

/-- C10: on every request whose store.get succeeds, the drain-variant
middleware yields a result (req.drain is installed: the armed closure
exactly when auto_drain is disabled and the request was admitted,
otherwise the no-op default); when the request was throttled, or when
auto_drain is enabled, invoking req.drain leaves the bucket untouched,
performs no store.set and throws nothing. -/
theorem C10_drain_defined_noop (rb : ℚ → Bucket → ℚ) (create : ℚ → Bucket)
    (burst cost t tD cost2 now2 : ℚ) (auto : Bool)
    (ob : Option Bucket) (setErr e2 : Option ℕ) :
    ∃ r : DrainMwResult,
      throttle_drain_mw rb create burst cost auto t tD (Except.ok ob) setErr
          = Except.ok r ∧
      r.drainArmed = (!auto && r.isAllowed) ∧
      (r.isAllowed = false →
        req_drain_action r cost2 now2 e2
          = { state := { bucket := r.bucket, drained := false },
              setCalled := false, thrown := none }) ∧
      (auto = true →
        req_drain_action r cost2 now2 e2
          = { state := { bucket := r.bucket, drained := false },
              setCalled := false, thrown := none }) := by
  simp only [throttle_drain_mw]
  generalize drain_tokens _ cost auto tD = p
  obtain ⟨ok, b2⟩ := p
  refine ⟨_, rfl, rfl, ?_, ?_⟩
  · intro h
    simp only at h
    subst h
    simp [req_drain_action]
  · intro h
    subst h
    simp [req_drain_action]

/-- Witness for C10 at a concrete throttled request (cost above the
token count) with auto_drain enabled. -/
theorem C10_witness :
    ∃ r : DrainMwResult,
      throttle_drain_mw (fun _ _ => 0)
          (fun u => { tokens := 1, mtime := u, rtime := 0 }) 1 5 true 0 0
          (Except.ok (some { tokens := 1, mtime := 0, rtime := 0 })) none
        = Except.ok r ∧
      r.drainArmed = (!true && r.isAllowed) ∧
      (r.isAllowed = false →
        req_drain_action r 5 9 none
          = { state := { bucket := r.bucket, drained := false },
              setCalled := false, thrown := none }) ∧
      (true = true →
        req_drain_action r 5 9 none
          = { state := { bucket := r.bucket, drained := false },
              setCalled := false, thrown := none }) :=
  C10_drain_defined_noop (fun _ _ => 0)
    (fun u => { tokens := 1, mtime := u, rtime := 0 }) 1 5 0 0 5 9 true
    (some { tokens := 1, mtime := 0, rtime := 0 }) none none

end ExpressThrottle
